import Mathlib

/-!
Shallow embedding of `codes/models/audio/music/transformer_diffusion14.py`.

Tensors are modelled as rationals indexed by (batch, channel, sequence
position); exact rational arithmetic stands in for floating point, so the
autocast region (line 165) and the `.float()` cast (line 173) are identities
here.  Primitives implemented outside this file (`AttentionBlock`,
`nn.GroupNorm`, `nn.Dropout`, `F.gelu`, `nn.SiLU`, the timestep-embedding MLP,
`ResEncoder16x`) are carried as abstract function fields of the module
structures; `checkpoint(f, x)` is semantically `f x` and device moves are
no-ops.
-/

namespace TD14

/-- A 3-d tensor of shape `(B, C, L)`: batch, channel, sequence position. -/
abbrev Tensor3 (B C L : ℕ) : Type := Fin B → Fin C → Fin L → ℚ

/-- Concatenation along the sequence dimension, `torch.cat([t1, t2], dim=-1)`. -/
def catSeq {B C M L : ℕ} (t1 : Tensor3 B C M) (t2 : Tensor3 B C L) :
    Tensor3 B C (M + L) :=
  fun b c l => if h : l.1 < M then t1 b c ⟨l.1, h⟩ else t2 b c ⟨l.1 - M, by omega⟩

/-- Concatenation along the channel dimension, `torch.cat([t1, t2], dim=1)`. -/
def catChan {B C1 C2 L : ℕ} (t1 : Tensor3 B C1 L) (t2 : Tensor3 B C2 L) :
    Tensor3 B (C1 + C2) L :=
  fun b c l => if h : c.1 < C1 then t1 b ⟨c.1, h⟩ l else t2 b ⟨c.1 - C1, by omega⟩ l

/-- The python slice `t[:, :, M:]` applied to a tensor of sequence length
`M + L`: drop the first `M` positions, keeping the trailing `L`. -/
def stripFront {B C L : ℕ} (M : ℕ) (t : Tensor3 B C (M + L)) : Tensor3 B C L :=
  fun b c l => t b c ⟨M + l.1, by omega⟩

/-- The python slice `t[:, K:]`: drop the first `K` channels. -/
def sliceChanFrom {B C L : ℕ} (K : ℕ) (t : Tensor3 B C L) : Tensor3 B (C - K) L :=
  fun b c l => t b ⟨K + c.1, by omega⟩ l

/-- Identity re-indexing of the channel dimension along an arithmetic equality
of channel counts (python shapes are plain numbers, so e.g. `Cc + Ci` and
`Ci + Cc` are the same shape there; Lean needs the explicit transport). -/
def reindexChan {B C1 C2 L : ℕ} (h : C1 = C2) (t : Tensor3 B C1 L) :
    Tensor3 B C2 L :=
  fun b c l => t b (Fin.cast h.symm c) l

/-- `nn.Conv1d(ci, co, 1)` with bias: a pointwise channel mix. -/
def conv1x1 {B ci co L : ℕ} (w : Fin co → Fin ci → ℚ) (bias : Fin co → ℚ)
    (t : Tensor3 B ci L) : Tensor3 B co L :=
  fun b o l => bias o + ∑ i : Fin ci, w o i * t b i l

/-- `nn.Conv1d(ci, co, 1, bias=False)`. -/
def conv1x1NoBias {B ci co L : ℕ} (w : Fin co → Fin ci → ℚ)
    (t : Tensor3 B ci L) : Tensor3 B co L :=
  fun b o l => ∑ i : Fin ci, w o i * t b i l

/-- Zero-padded read used by a kernel-3, padding-1 convolution: position `j`
of the padded input, i.e. position `j - 1` of `t`, and `0` off both ends. -/
def padGet {B C L : ℕ} (t : Tensor3 B C L) (b : Fin B) (i : Fin C) (j : ℕ) : ℚ :=
  if h : 1 ≤ j ∧ j - 1 < L then t b i ⟨j - 1, h.2⟩ else 0

/-- `nn.Conv1d(ci, co, kernel_size=3, padding=1)`: output position `l` reads
padded input positions `l`, `l+1`, `l+2` (inputs `l-1`, `l`, `l+1`). -/
def conv3 {B ci co L : ℕ} (w : Fin co → Fin ci → Fin 3 → ℚ) (bias : Fin co → ℚ)
    (t : Tensor3 B ci L) : Tensor3 B co L :=
  fun b o l => bias o + ∑ i : Fin ci, ∑ k : Fin 3, w o i k * padGet t b i (l.1 + k.1)

/-- Pointwise application of a scalar function (e.g. `F.gelu`, `nn.SiLU`). -/
def mapElem {B C L : ℕ} (f : ℚ → ℚ) (t : Tensor3 B C L) : Tensor3 B C L :=
  fun b c l => f (t b c l)

/-- `torch.where(mask, a, t)` with a `(B,1,1)` boolean mask and a `(B,C,1)`
first operand, both broadcast against the `(B,C,L)` second operand. -/
def torchWhere {B C L : ℕ} (mask : Fin B → Bool) (a : Fin B → Fin C → ℚ)
    (t : Tensor3 B C L) : Tensor3 B C L :=
  fun b c l => if mask b then a b c else t b c l

/-- `F.interpolate(t, size=L, mode='nearest')` along the sequence dimension:
output position `l` reads source position `⌊l * Lp / L⌋`. -/
def interpNearest {B C Lp : ℕ} (t : Tensor3 B C Lp) (L : ℕ) : Tensor3 B C L :=
  fun b c l => if h : l.1 * Lp / L < Lp then t b c ⟨l.1 * Lp / L, h⟩ else 0

/-- `SubBlock` (lines 15-44).  `B` is the batch size; `inp_dim`,
`contraction_dim` and `blk_dim` are the constructor arguments (line 16).
`blk_emb_proj_w`/`blk_emb_proj_b` are the weight and bias of
`nn.Conv1d(blk_dim, inp_dim, 1)` (line 20).  `attn` stands for
`AttentionBlock(inp_dim, out_channels=contraction_dim, num_heads=heads)`
together with the optional local-attention mask: `AttentionBlock` lives in
`models/arch_util`, outside the given sources, so it is modelled from the
spec as an abstract map that preserves the sequence length (the spec's block
structure strips the concatenated prefix "to realign sequence length", which
presumes length-preserving attention).  `dropout` abstracts
`nn.Dropout(p=dropout)` as applied at lines 37 and 41 (both call sites see
`contraction_dim` channels); `attnorm`/`ffnorm` abstract
`nn.GroupNorm(8, contraction_dim)`; `gelu` abstracts the pointwise `F.gelu`.
`ff_w`/`ff_b` are the weight and bias of
`nn.Conv1d(inp_dim+contraction_dim, contraction_dim, kernel_size=3, padding=1)`
(line 23). -/
structure SubBlock (B inp_dim contraction_dim blk_dim : ℕ) where
  blk_emb_proj_w : Fin inp_dim → Fin blk_dim → ℚ
  blk_emb_proj_b : Fin inp_dim → ℚ
  attn : ∀ n : ℕ, Tensor3 B inp_dim n → Tensor3 B contraction_dim n
  dropout : ∀ n : ℕ, Tensor3 B contraction_dim n → Tensor3 B contraction_dim n
  attnorm : ∀ n : ℕ, Tensor3 B contraction_dim n → Tensor3 B contraction_dim n
  ff_w : Fin contraction_dim → Fin (inp_dim + contraction_dim) → Fin 3 → ℚ
  ff_b : Fin contraction_dim → ℚ
  ffnorm : ∀ n : ℕ, Tensor3 B contraction_dim n → Tensor3 B contraction_dim n
  gelu : ℚ → ℚ

/-- Lines 36-38 of `SubBlock.forward`: project the block embedding
(`blk_enc = self.blk_emb_proj(blk_emb)`), concatenate it in front of `x`
along the sequence dimension, run attention (with dropout), then strip the
first `blk_emb.shape[-1]` positions to realign with `x`.  The result type
records that the branch output has the sequence length of `x`. -/
def SubBlock.attnBranch {B Ci Cc Bd L M : ℕ} (m : SubBlock B Ci Cc Bd)
    (x : Tensor3 B Ci L) (blk_emb : Tensor3 B Bd M) : Tensor3 B Cc L :=
  stripFront M (m.dropout (M + L) (m.attn (M + L)
    (catSeq (conv1x1 m.blk_emb_proj_w m.blk_emb_proj_b blk_emb) x)))

/-- `SubBlock.forward` (lines 32-44).  `checkpoint(self.ff, h)` is `self.ff(h)`.
The output channel layout is `[ah (Cc), x (Ci), hf (Cc)]` per the two
`torch.cat(..., dim=1)` at lines 40 and 43. -/
def SubBlock.forward {B Ci Cc Bd L M : ℕ} (m : SubBlock B Ci Cc Bd)
    (x : Tensor3 B Ci L) (blk_emb : Tensor3 B Bd M) :
    Tensor3 B (Cc + Ci + Cc) L :=
  let ah := mapElem m.gelu (m.attnorm L (m.attnBranch x blk_emb))
  let h := catChan ah x
  let hf := mapElem m.gelu (m.ffnorm L (m.dropout L
    (conv3 m.ff_w m.ff_b (reindexChan (Nat.add_comm Cc Ci) h))))
  catChan h hf

/-- C2: in `SubBlock.forward`, the projected block embedding is the prefix of
the concatenated sequence fed to attention, `x` is its suffix, and the
attention-branch result (whose type records sequence length `L`, that of `x`)
at position `l` is the post-attention value at position `M + l`, i.e. exactly
`M` prefix positions are stripped and the result is realigned with `x`. -/
theorem SubBlock.attn_concat_strip_realigns {B Ci Cc Bd L M : ℕ}
    (m : SubBlock B Ci Cc Bd) (x : Tensor3 B Ci L) (blk_emb : Tensor3 B Bd M) :
    (∀ (b : Fin B) (c : Fin Ci) (j : Fin M),
        catSeq (conv1x1 m.blk_emb_proj_w m.blk_emb_proj_b blk_emb) x b c
            (Fin.castAdd L j)
          = conv1x1 m.blk_emb_proj_w m.blk_emb_proj_b blk_emb b c j)
    ∧ (∀ (b : Fin B) (c : Fin Ci) (l : Fin L),
        catSeq (conv1x1 m.blk_emb_proj_w m.blk_emb_proj_b blk_emb) x b c
            (Fin.natAdd M l)
          = x b c l)
    ∧ (∀ (b : Fin B) (c : Fin Cc) (l : Fin L),
        m.attnBranch x blk_emb b c l
          = m.dropout (M + L) (m.attn (M + L)
              (catSeq (conv1x1 m.blk_emb_proj_w m.blk_emb_proj_b blk_emb) x))
              b c (Fin.natAdd M l)) := by
  refine ⟨?_, ?_, ?_⟩
  · intro b c j
    simp only [catSeq, Fin.coe_castAdd, j.isLt, dif_pos]
  · intro b c l
    have hn : ¬ (Fin.natAdd M l).1 < M := by simp [Fin.natAdd]
    simp only [catSeq, hn, dif_neg, not_false_iff]
    congr 1
    ext
    simp [Fin.natAdd]
  · intro b c l
    rfl

/-- `ConcatAttentionBlock` (lines 47-63).  `prenorm` abstracts
`nn.GroupNorm(8, trunk_dim)` (line 50); `block1` and `block2` are the two
sub-blocks constructed at lines 51-54 (`block2`'s input width is
`trunk_dim + contraction_dim*2`, the channel count of `block1`'s output);
`out_w` is the weight of `nn.Conv1d(contraction_dim*4, trunk_dim,
kernel_size=1, bias=False)` (line 55), zeroed at construction (line 56). -/
structure ConcatAttentionBlock (B trunk_dim contraction_dim : ℕ) where
  prenorm : ∀ n : ℕ, Tensor3 B trunk_dim n → Tensor3 B trunk_dim n
  block1 : SubBlock B trunk_dim contraction_dim trunk_dim
  block2 : SubBlock B (trunk_dim + contraction_dim * 2) contraction_dim trunk_dim
  out_w : Fin trunk_dim → Fin (contraction_dim * 4) → ℚ

/-- `ConcatAttentionBlock.forward` (lines 58-63): prenorm, the two sub-blocks,
then `self.out(h[:, x.shape[1]:])` added residually to `x`. -/
def ConcatAttentionBlock.forward {B T Cc L M : ℕ} (m : ConcatAttentionBlock B T Cc)
    (x : Tensor3 B T L) (blk_emb : Tensor3 B T M) : Tensor3 B T L :=
  let h0 := m.prenorm L x
  let h1 := m.block1.forward h0 blk_emb
  let h1r : Tensor3 B (T + Cc * 2) L :=
    reindexChan (show Cc + T + Cc = T + Cc * 2 by ring) h1
  let h2 := m.block2.forward h1r blk_emb
  let h3 : Tensor3 B (Cc * 4) L :=
    reindexChan (show Cc + (T + Cc * 2) + Cc - T = Cc * 4 by omega)
      (sliceChanFrom T h2)
  let hout := conv1x1NoBias m.out_w h3
  fun b c l => hout b c l + x b c l

/-- Shape configuration recorded by `SubBlock.__init__` (lines 16-24). -/
structure SubBlockCfg where
  inp_dim : ℕ
  contraction_dim : ℕ
  blk_dim : ℕ
  heads : ℕ
  dropout : ℚ
  enable_attention_masking : Bool

/-- `SubBlock.__init__` as a shape configuration (line 16). -/
def SubBlock.initCfg (inp_dim contraction_dim blk_dim heads : ℕ) (dropout : ℚ)
    (enable_attention_masking : Bool) : SubBlockCfg :=
  { inp_dim := inp_dim, contraction_dim := contraction_dim, blk_dim := blk_dim,
    heads := heads, dropout := dropout,
    enable_attention_masking := enable_attention_masking }

/-- The output channel count of `self.blk_emb_proj = nn.Conv1d(blk_dim,
inp_dim, 1)` (line 20): the conv's out-channel argument, `inp_dim`. -/
def SubBlockCfg.blkEmbProjOutChannels (c : SubBlockCfg) : ℕ := c.inp_dim

/-- Shape configuration of `ConcatAttentionBlock.__init__` (lines 48-56). -/
structure ConcatAttentionBlockCfg where
  trunk_dim : ℕ
  contraction_dim : ℕ
  block1 : SubBlockCfg
  block2 : SubBlockCfg

/-- `ConcatAttentionBlock.__init__` as a shape configuration (lines 48-54):
`block1` is built on `trunk_dim` inputs, `block2` on
`trunk_dim + contraction_dim*2` inputs, both with `blk_dim = trunk_dim`. -/
def ConcatAttentionBlock.initCfg (trunk_dim contraction_dim heads : ℕ)
    (dropout : ℚ) (enable_attention_masking : Bool) : ConcatAttentionBlockCfg :=
  { trunk_dim := trunk_dim, contraction_dim := contraction_dim,
    block1 := SubBlock.initCfg trunk_dim contraction_dim trunk_dim heads dropout
      enable_attention_masking,
    block2 := SubBlock.initCfg (trunk_dim + contraction_dim * 2) contraction_dim
      trunk_dim heads dropout enable_attention_masking }

/-- C3 counterexample: with the default model shapes (`trunk_dim = 1024`,
`contraction_dim = 256`, `num_heads = 4`), the second sub-block's projection
of `blk_emb` has `1024 + 2*256 = 1536` output channels, not `trunk_dim`:
the claim that both sub-blocks project `blk_emb` to `trunk_dim` channels is
false. -/
theorem ConcatAttentionBlock.block2_proj_not_trunk_dim :
    ¬ ((ConcatAttentionBlock.initCfg 1024 256 4 0 true).block2.blkEmbProjOutChannels
        = 1024) := by
  decide

/-- C3 amended: in every `ConcatAttentionBlock`, each sub-block's projection
maps `blk_emb` into the channel space of that sub-block's own input:
`block1`'s projection produces `trunk_dim` channels and `block2`'s produces
`trunk_dim + contraction_dim*2` channels (they both equal `trunk_dim` only
when `contraction_dim = 0`). -/
theorem ConcatAttentionBlock.blk_emb_proj_channels (trunk_dim contraction_dim
    heads : ℕ) (dropout : ℚ) (eam : Bool) :
    (ConcatAttentionBlock.initCfg trunk_dim contraction_dim heads dropout
        eam).block1.blkEmbProjOutChannels = trunk_dim
    ∧ (ConcatAttentionBlock.initCfg trunk_dim contraction_dim heads dropout
        eam).block2.blkEmbProjOutChannels = trunk_dim + contraction_dim * 2 := by
  exact ⟨rfl, rfl⟩

/-- `TransformerDiffusion` (lines 66-126).  Shape parameters: `B` batch,
`mc = model_channels`, `cd = contraction_dim`, `nl = num_layers`,
`ic = in_channels`, `ivd = input_vec_dim`, `oc = out_channels`.
`training` is the `nn.Module` training flag; `unconditioned_percentage` is
the constructor argument of line 85.  `inp_block_*` is
`conv_nd(1, in_channels, model_channels, 3, 1, 1)` (line 100); `time_embed`
abstracts `self.time_embed(timestep_embedding(timesteps, time_embed_dim))
.unsqueeze(-1)` (lines 102-106, 166), a `(B, model_channels, 1)` tensor
computed from the integer timesteps; `input_converter_*` is
`nn.Conv1d(input_vec_dim, model_channels, 1)` (line 108);
`unconditioned_embedding` is the `(1, model_channels, 1)` parameter of line
109, stored per channel; `intg_*` is `nn.Conv1d(model_channels*2,
model_channels, 1)` (line 110); `layers` are the `num_layers`
`ConcatAttentionBlock`s (line 111); `out_norm`, `out_silu` and `out_conv_*`
are the three stages of the `out` head (lines 113-117), the last being
`conv_nd(1, model_channels, out_channels, 3, padding=1)` wrapped in
`zero_module` at construction. -/
structure TransformerDiffusion (B mc cd nl ic ivd oc : ℕ) where
  training : Bool
  unconditioned_percentage : ℚ
  inp_block_w : Fin mc → Fin ic → Fin 3 → ℚ
  inp_block_b : Fin mc → ℚ
  time_embed : (Fin B → ℕ) → Tensor3 B mc 1
  input_converter_w : Fin mc → Fin ivd → ℚ
  input_converter_b : Fin mc → ℚ
  unconditioned_embedding : Fin mc → ℚ
  intg_w : Fin mc → Fin (mc * 2) → ℚ
  intg_b : Fin mc → ℚ
  layers : Fin nl → ConcatAttentionBlock B mc cd
  out_norm : ∀ n : ℕ, Tensor3 B mc n → Tensor3 B mc n
  out_silu : ℚ → ℚ
  out_conv_w : Fin oc → Fin mc → Fin 3 → ℚ
  out_conv_b : Fin oc → ℚ

/-- Lines 157-161 of `TransformerDiffusion.forward`: in training mode with
positive `unconditioned_percentage`, draw one uniform value per batch element
(`rand`, modelling `torch.rand((B,1,1))`) and `torch.where`-replace the
projected conditioning of the batch elements whose draw is below
`unconditioned_percentage` with `self.unconditioned_embedding.repeat(B,1,1)`
(broadcast over the sequence dimension). -/
def TransformerDiffusion.maskedCodeEmb {B mc cd nl ic ivd oc n : ℕ}
    (m : TransformerDiffusion B mc cd nl ic ivd oc)
    (code_emb : Tensor3 B mc n) (rand : Fin B → ℚ) : Tensor3 B mc n :=
  if m.training = true ∧ 0 < m.unconditioned_percentage then
    torchWhere (fun b => decide (rand b < m.unconditioned_percentage))
      (fun _ c => m.unconditioned_embedding c) code_emb
  else code_emb

/-- Lines 150-163 of `TransformerDiffusion.forward`: the conditioning
embedding.  With `conditioning_free` the unconditioned embedding is repeated
over batch and the `L` sequence positions of `x` (line 152); otherwise the
prior is projected by `input_converter`, optionally batch-masked, and
nearest-interpolated to length `L` (lines 154-163).  A `None` prior in the
conditioned branch has no value (`input_converter(None)` raises), hence the
`Option` result. -/
def TransformerDiffusion.codeEmb {B mc cd nl ic ivd oc Lp : ℕ}
    (m : TransformerDiffusion B mc cd nl ic ivd oc) (L : ℕ)
    (prior : Option (Tensor3 B ivd Lp)) (conditioning_free : Bool)
    (rand : Fin B → ℚ) : Option (Tensor3 B mc L) :=
  if conditioning_free then
    some (fun _ c _ => m.unconditioned_embedding c)
  else
    match prior with
    | none => none
    | some p =>
        some (interpNearest
          (m.maskedCodeEmb (conv1x1 m.input_converter_w m.input_converter_b p)
            rand) L)

/-- Lines 165-173 of `TransformerDiffusion.forward`: the trunk.  `blk_emb` is
the timestep embedding; `x` goes through `inp_block`, is concatenated with
`code_emb` into `intg`, and then through the `ConcatAttentionBlock` stack
(`checkpoint(layer, x, blk_emb)` is `layer(x, blk_emb)`; autocast and the
final `.float()` are identities over exact arithmetic). -/
def TransformerDiffusion.trunkOut {B mc cd nl ic ivd oc L : ℕ}
    (m : TransformerDiffusion B mc cd nl ic ivd oc)
    (code_emb : Tensor3 B mc L) (x : Tensor3 B ic L) (timesteps : Fin B → ℕ) :
    Tensor3 B mc L :=
  let blk_emb := m.time_embed timesteps
  let x1 := conv3 m.inp_block_w m.inp_block_b x
  let x2 := conv1x1 m.intg_w m.intg_b
    (reindexChan (show mc + mc = mc * 2 by ring) (catChan x1 code_emb))
  (List.finRange nl).foldl (fun h i => (m.layers i).forward h blk_emb) x2

/-- Line 174 of `TransformerDiffusion.forward`: the `out` head,
`normalization`, `nn.SiLU`, then the zero-initialised kernel-3 conv. -/
def TransformerDiffusion.outHead {B mc cd nl ic ivd oc L : ℕ}
    (m : TransformerDiffusion B mc cd nl ic ivd oc) (t : Tensor3 B mc L) :
    Tensor3 B oc L :=
  conv3 m.out_conv_w m.out_conv_b (mapElem m.out_silu (m.out_norm L t))

/-- Lines 177-180 of `TransformerDiffusion.forward`: `extraneous_addition`,
the sum of the means of the "possibly unused" parameters — here just
`self.unconditioned_embedding.mean()`, the mean of a `(1, mc, 1)` tensor. -/
def TransformerDiffusion.extraneousAddition {B mc cd nl ic ivd oc : ℕ}
    (m : TransformerDiffusion B mc cd nl ic ivd oc) : ℚ :=
  0 + (∑ c : Fin mc, m.unconditioned_embedding c) / (mc : ℚ)

/-- `TransformerDiffusion.forward` (lines 150-183): conditioning embedding,
trunk, `out` head, and the dummy `out + extraneous_addition * 0` of line 181. -/
def TransformerDiffusion.forward {B mc cd nl ic ivd oc L Lp : ℕ}
    (m : TransformerDiffusion B mc cd nl ic ivd oc)
    (x : Tensor3 B ic L) (timesteps : Fin B → ℕ)
    (prior : Option (Tensor3 B ivd Lp)) (conditioning_free : Bool)
    (rand : Fin B → ℚ) : Option (Tensor3 B oc L) :=
  (m.codeEmb L prior conditioning_free rand).map (fun code_emb =>
    fun b c l =>
      m.outHead (m.trunkOut code_emb x timesteps) b c l
        + m.extraneousAddition * 0)

/-- Helper: a `ConcatAttentionBlock` whose `out` convolution weight is zero
(its state right after construction, line 56) returns its input unchanged:
`self.out(...)` is the zero tensor and line 63 returns `0 + x`. -/
theorem ConcatAttentionBlock.forward_of_zero_out {B T Cc L M : ℕ}
    (m : ConcatAttentionBlock B T Cc) (h : m.out_w = fun _ _ => 0)
    (x : Tensor3 B T L) (blk_emb : Tensor3 B T M) :
    m.forward x blk_emb = x := by
  funext b c l
  simp [ConcatAttentionBlock.forward, conv1x1NoBias, h]

/-- C1: in training mode with `conditioning_free=False` and
`unconditioned_percentage > 0`, the per-batch-element `torch.where` of lines
157-161 replaces the entire projected conditioning (all channels, all
sequence positions) of every batch element whose draw is below
`unconditioned_percentage` with the learned unconditioned embedding, and
leaves every other batch element's projection unchanged. -/
theorem TransformerDiffusion.conditioning_dropout_per_batch
    {B mc cd nl ic ivd oc Lp : ℕ}
    (m : TransformerDiffusion B mc cd nl ic ivd oc) (p : Tensor3 B ivd Lp)
    (rand : Fin B → ℚ) (ht : m.training = true)
    (hu : 0 < m.unconditioned_percentage) (b : Fin B) :
    (rand b < m.unconditioned_percentage →
      ∀ (c : Fin mc) (l : Fin Lp),
        m.maskedCodeEmb (conv1x1 m.input_converter_w m.input_converter_b p)
            rand b c l
          = m.unconditioned_embedding c)
    ∧ (¬ rand b < m.unconditioned_percentage →
      ∀ (c : Fin mc) (l : Fin Lp),
        m.maskedCodeEmb (conv1x1 m.input_converter_w m.input_converter_b p)
            rand b c l
          = conv1x1 m.input_converter_w m.input_converter_b p b c l) := by
  constructor
  · intro hlt c l
    simp [TransformerDiffusion.maskedCodeEmb, torchWhere, ht, hu, hlt]
  · intro hge c l
    simp [TransformerDiffusion.maskedCodeEmb, torchWhere, ht, hu, hge]

/-- A concrete two-batch-element model exercising the conditioning dropout. -/
def c1Model : TransformerDiffusion 2 1 0 0 1 1 1 where
  training := true
  unconditioned_percentage := 1
  inp_block_w := fun _ _ _ => 0
  inp_block_b := fun _ => 0
  time_embed := fun _ => fun _ _ _ => 0
  input_converter_w := fun _ _ => 0
  input_converter_b := fun _ => 7
  unconditioned_embedding := fun _ => 5
  intg_w := fun _ _ => 0
  intg_b := fun _ => 0
  layers := fun i => i.elim0
  out_norm := fun _ t => t
  out_silu := fun q => q
  out_conv_w := fun _ _ _ => 0
  out_conv_b := fun _ => 0

/-- A concrete prior for the conditioning-dropout witness. -/
def c1Prior : Tensor3 2 1 1 := fun _ _ _ => 3

/-- Concrete per-batch draws: batch element 0 draws below
`unconditioned_percentage = 1`, batch element 1 does not. -/
def c1Rand : Fin 2 → ℚ := ![0, 1]

/-- Witness for C1 at a concrete model: batch element 0 (draw `0 < 1`) reads
the unconditioned embedding, batch element 1 (draw `1`) keeps its projected
conditioning. -/
theorem TransformerDiffusion.conditioning_dropout_per_batch_witness :
    c1Model.training = true ∧ 0 < c1Model.unconditioned_percentage
    ∧ c1Model.maskedCodeEmb
        (conv1x1 c1Model.input_converter_w c1Model.input_converter_b c1Prior)
        c1Rand 0 0 0
      = c1Model.unconditioned_embedding 0
    ∧ c1Model.maskedCodeEmb
        (conv1x1 c1Model.input_converter_w c1Model.input_converter_b c1Prior)
        c1Rand 1 0 0
      = conv1x1 c1Model.input_converter_w c1Model.input_converter_b c1Prior
          1 0 0 :=
  ⟨rfl, one_pos,
   (TransformerDiffusion.conditioning_dropout_per_batch c1Model c1Prior c1Rand
      rfl one_pos 0).1 (by norm_num [c1Rand, c1Model]) 0 0,
   (TransformerDiffusion.conditioning_dropout_per_batch c1Model c1Prior c1Rand
      rfl one_pos 1).2 (by norm_num [c1Rand, c1Model]) 0 0⟩

/-- C7: with `conditioning_free=True` the forward pass does not depend on
`prior` (line 151-152 never reads it): two calls agreeing on everything else
return equal outputs, and the conditioning embedding is the learned
unconditioned embedding broadcast over batch and sequence. -/
theorem TransformerDiffusion.conditioning_free_ignores_prior
    {B mc cd nl ic ivd oc L Lp : ℕ}
    (m : TransformerDiffusion B mc cd nl ic ivd oc)
    (x : Tensor3 B ic L) (ts : Fin B → ℕ) (rand : Fin B → ℚ)
    (p1 p2 : Option (Tensor3 B ivd Lp)) :
    m.forward x ts p1 true rand = m.forward x ts p2 true rand
    ∧ m.codeEmb L p1 true rand
        = some (fun _ c _ => m.unconditioned_embedding c) :=
  ⟨rfl, rfl⟩

/-- C8: right after construction — every block `out` convolution weight zeroed
(line 56) and the final `out` head convolution zeroed by `zero_module`
(line 116) — every `ConcatAttentionBlock` is the identity on `x`, and
`TransformerDiffusion.forward` returns the all-zero tensor whenever it
returns at all (the dummy addition of line 181 contributing exactly zero). -/
theorem TransformerDiffusion.zero_init_forward_zero {B mc cd nl ic ivd oc : ℕ}
    (m : TransformerDiffusion B mc cd nl ic ivd oc)
    (hblocks : ∀ i, (m.layers i).out_w = fun _ _ => 0)
    (hw : m.out_conv_w = fun _ _ _ => 0) (hb : m.out_conv_b = fun _ => 0) :
    (∀ (i : Fin nl) (L M : ℕ) (x : Tensor3 B mc L) (e : Tensor3 B mc M),
        (m.layers i).forward x e = x)
    ∧ ∀ {L Lp : ℕ} (x : Tensor3 B ic L) (ts : Fin B → ℕ)
        (prior : Option (Tensor3 B ivd Lp)) (cf : Bool) (rand : Fin B → ℚ),
        m.forward x ts prior cf rand
          = (m.codeEmb L prior cf rand).map
              (fun _ => fun _ _ _ => (0 : ℚ)) := by
  constructor
  · intro i L M x e
    exact ConcatAttentionBlock.forward_of_zero_out (m.layers i) (hblocks i) x e
  · intro L Lp x ts prior cf rand
    unfold TransformerDiffusion.forward
    cases m.codeEmb L prior cf rand with
    | none => rfl
    | some ce =>
        simp only [Option.map_some']
        congr 1
        funext b c l
        simp [TransformerDiffusion.outHead, conv3, hw, hb]

/-- A concrete zero-initialised sub-block (abstract primitives constant). -/
def c8SubBlock (Ci : ℕ) : SubBlock 1 Ci 1 1 where
  blk_emb_proj_w := fun _ _ => 0
  blk_emb_proj_b := fun _ => 0
  attn := fun _ _ => fun _ _ _ => 0
  dropout := fun _ t => t
  attnorm := fun _ t => t
  ff_w := fun _ _ _ => 0
  ff_b := fun _ => 0
  ffnorm := fun _ t => t
  gelu := fun q => q

/-- A concrete `ConcatAttentionBlock` in its just-constructed state: the `out`
weight is zero (line 56). -/
def c8Block : ConcatAttentionBlock 1 1 1 where
  prenorm := fun _ t => t
  block1 := c8SubBlock 1
  block2 := c8SubBlock (1 + 1 * 2)
  out_w := fun _ _ => 0

/-- A concrete just-constructed `TransformerDiffusion`: block `out` weights
and the final head convolution are zero. -/
def c8Model : TransformerDiffusion 1 1 1 1 1 1 1 where
  training := true
  unconditioned_percentage := 1 / 10
  inp_block_w := fun _ _ _ => 1
  inp_block_b := fun _ => 2
  time_embed := fun _ => fun _ _ _ => 3
  input_converter_w := fun _ _ => 4
  input_converter_b := fun _ => 5
  unconditioned_embedding := fun _ => 6
  intg_w := fun _ _ => 7
  intg_b := fun _ => 8
  layers := fun _ => c8Block
  out_norm := fun _ t => t
  out_silu := fun q => q
  out_conv_w := fun _ _ _ => 0
  out_conv_b := fun _ => 0

/-- Witness for C8 at the concrete zero-initialised model: its single block is
the identity on a concrete input, and the forward pass on a concrete input
maps the conditioning embedding to the all-zero tensor. -/
theorem TransformerDiffusion.zero_init_forward_zero_witness :
    (c8Model.layers 0).forward (fun _ _ _ => (3 : ℚ) : Tensor3 1 1 4)
        (fun _ _ _ => (9 : ℚ) : Tensor3 1 1 1)
      = (fun _ _ _ => (3 : ℚ) : Tensor3 1 1 4)
    ∧ c8Model.forward (fun _ _ _ => (3 : ℚ) : Tensor3 1 1 4) (fun _ => 600)
        (none : Option (Tensor3 1 1 2)) true (fun _ => 0)
      = (c8Model.codeEmb 4 (none : Option (Tensor3 1 1 2)) true (fun _ => 0)).map
          (fun _ => fun _ _ _ => (0 : ℚ)) :=
  ⟨(TransformerDiffusion.zero_init_forward_zero c8Model (fun _ => rfl) rfl
      rfl).1 0 4 1 (fun _ _ _ => (3 : ℚ)) (fun _ _ _ => (9 : ℚ)),
   (TransformerDiffusion.zero_init_forward_zero c8Model (fun _ => rfl) rfl
      rfl).2 (fun _ _ _ => (3 : ℚ)) (fun _ => 600)
      (none : Option (Tensor3 1 1 2)) true (fun _ => 0)⟩

/-- C10: out of training mode the masking of lines 157-161 is skipped, so with
`conditioning_free=False` the conditioning embedding is the deterministic
projection-then-nearest-interpolation of `prior`, and two eval-mode runs with
identical inputs and model state — but different random draws — return
identical outputs. -/
theorem TransformerDiffusion.eval_mode_deterministic
    {B mc cd nl ic ivd oc L Lp : ℕ}
    (m : TransformerDiffusion B mc cd nl ic ivd oc)
    (x : Tensor3 B ic L) (ts : Fin B → ℕ) (p : Tensor3 B ivd Lp)
    (r1 r2 : Fin B → ℚ) (h : m.training = false) :
    m.codeEmb L (some p) false r1
        = some (interpNearest
            (conv1x1 m.input_converter_w m.input_converter_b p) L)
    ∧ m.forward x ts (some p) false r1 = m.forward x ts (some p) false r2 := by
  have hm : ∀ r : Fin B → ℚ,
      m.maskedCodeEmb (conv1x1 m.input_converter_w m.input_converter_b p) r
        = conv1x1 m.input_converter_w m.input_converter_b p := by
    intro r
    simp [TransformerDiffusion.maskedCodeEmb, h]
  have hc : ∀ r : Fin B → ℚ,
      m.codeEmb L (some p) false r
        = some (interpNearest
            (conv1x1 m.input_converter_w m.input_converter_b p) L) := by
    intro r
    simp [TransformerDiffusion.codeEmb, hm]
  refine ⟨hc r1, ?_⟩
  unfold TransformerDiffusion.forward
  rw [hc r1, hc r2]

/-- A concrete eval-mode model for the C10 witness. -/
def c10Model : TransformerDiffusion 1 1 0 0 1 1 1 where
  training := false
  unconditioned_percentage := 1 / 10
  inp_block_w := fun _ _ _ => 1
  inp_block_b := fun _ => 2
  time_embed := fun _ => fun _ _ _ => 3
  input_converter_w := fun _ _ => 4
  input_converter_b := fun _ => 5
  unconditioned_embedding := fun _ => 6
  intg_w := fun _ _ => 7
  intg_b := fun _ => 8
  layers := fun i => i.elim0
  out_norm := fun _ t => t
  out_silu := fun q => q
  out_conv_w := fun _ _ _ => 1
  out_conv_b := fun _ => 1

/-- A concrete prior for the C10 witness. -/
def c10Prior : Tensor3 1 1 2 := fun _ _ _ => 11

/-- Witness for C10 at a concrete eval-mode model: the conditioning embedding
is the deterministic projection of the prior, and the outputs under two
different random draws coincide. -/
theorem TransformerDiffusion.eval_mode_deterministic_witness :
    c10Model.training = false
    ∧ c10Model.codeEmb 3 (some c10Prior) false (fun _ => 0)
        = some (interpNearest
            (conv1x1 c10Model.input_converter_w c10Model.input_converter_b
              c10Prior) 3)
    ∧ c10Model.forward (fun _ _ _ => (2 : ℚ) : Tensor3 1 1 3) (fun _ => 600)
        (some c10Prior) false (fun _ => 0)
      = c10Model.forward (fun _ _ _ => (2 : ℚ) : Tensor3 1 1 3) (fun _ => 600)
        (some c10Prior) false (fun _ => 1 / 100) :=
  ⟨rfl,
   (TransformerDiffusion.eval_mode_deterministic c10Model
      (fun _ _ _ => (2 : ℚ)) (fun _ => 600) c10Prior (fun _ => 0)
      (fun _ => 1 / 100) rfl).1,
   (TransformerDiffusion.eval_mode_deterministic c10Model
      (fun _ _ _ => (2 : ℚ)) (fun _ => 600) c10Prior (fun _ => 0)
      (fun _ => 1 / 100) rfl).2⟩

/-- `TransformerDiffusionWithCheaterLatent` (lines 186-225).  `diff` is the
inner `TransformerDiffusion`; `encoder` is modelled from the spec: it stands
for `ResEncoder16x(256, 1024, 256, ...)` (line 192, defined in
`models/audio/music/encoders`, outside the given sources), the
mel-spectrogram encoder producing the "cheater" latent code fed to the
denoiser as its prior.  `encoderParamMeans` records the means
`p.mean()` of the encoder's parameters, the only facet of them that
`forward` reads (line 203). -/
structure TransformerDiffusionWithCheaterLatent
    (B mc cd nl ic ivd oc melC Lm Lp : ℕ) where
  internal_step : ℕ
  freeze_encoder_until : Option ℕ
  diff : TransformerDiffusion B mc cd nl ic ivd oc
  encoder : Tensor3 B melC Lm → Tensor3 B ivd Lp
  encoderParamMeans : List ℚ

/-- Line 196: `self.freeze_encoder_until is not None and self.internal_step >
self.freeze_encoder_until`. -/
def TransformerDiffusionWithCheaterLatent.encoderGradEnabled
    {B mc cd nl ic ivd oc melC Lm Lp : ℕ}
    (m : TransformerDiffusionWithCheaterLatent B mc cd nl ic ivd oc melC Lm Lp) :
    Bool :=
  match m.freeze_encoder_until with
  | none => false
  | some f => decide (f < m.internal_step)

/-- Lines 195-203 of `TransformerDiffusionWithCheaterLatent.forward`: the
encoder projection of `truth_mel` with the dummy additions — when the encoder
is frozen (`encoder_grad_enabled` false; `torch.set_grad_enabled` itself has
no effect on values), every encoder parameter mean times zero is added to the
projection, one parameter at a time. -/
def TransformerDiffusionWithCheaterLatent.projWithDummies
    {B mc cd nl ic ivd oc melC Lm Lp : ℕ}
    (m : TransformerDiffusionWithCheaterLatent B mc cd nl ic ivd oc melC Lm Lp)
    (truth_mel : Tensor3 B melC Lm) : Tensor3 B ivd Lp :=
  (if m.encoderGradEnabled then ([] : List ℚ) else m.encoderParamMeans).foldl
    (fun proj pm => fun b c l => proj b c l + pm * 0) (m.encoder truth_mel)

/-- `TransformerDiffusionWithCheaterLatent.forward` (lines 194-206): encode
`truth_mel`, add the dummy terms, and run the inner diffusion model with the
result as `prior`. -/
def TransformerDiffusionWithCheaterLatent.forward
    {B mc cd nl ic ivd oc melC Lm Lp L : ℕ}
    (m : TransformerDiffusionWithCheaterLatent B mc cd nl ic ivd oc melC Lm Lp)
    (x : Tensor3 B ic L) (timesteps : Fin B → ℕ)
    (truth_mel : Tensor3 B melC Lm) (conditioning_free : Bool)
    (rand : Fin B → ℚ) : Option (Tensor3 B oc L) :=
  m.diff.forward x timesteps (some (m.projWithDummies truth_mel))
    conditioning_free rand

/-- Helper: repeatedly adding `pm * 0` to a tensor (the dummy-parameter loop
of lines 202-203) is the identity over exact arithmetic. -/
theorem foldl_add_mul_zero {B C L : ℕ} (ms : List ℚ) (t : Tensor3 B C L) :
    ms.foldl (fun proj pm => fun b c l => proj b c l + pm * 0) t = t := by
  induction ms generalizing t with
  | nil => rfl
  | cons a tl ih =>
      rw [List.foldl_cons]
      have h1 : (fun b c l => t b c l + a * 0) = t := by
        funext b c l
        ring
      rw [h1]
      exact ih t

/-- C5: the dummy-parameter additions are value-preserving identities over
exact arithmetic.  First, `TransformerDiffusion.forward` (line 181) returns
exactly the `out` head's output on the trunk; second, the encoder-parameter
loop of `TransformerDiffusionWithCheaterLatent.forward` (lines 202-203)
leaves the encoder projection unchanged. -/
theorem dummy_additions_are_identities :
    (∀ {B mc cd nl ic ivd oc L Lp : ℕ}
        (m : TransformerDiffusion B mc cd nl ic ivd oc)
        (x : Tensor3 B ic L) (ts : Fin B → ℕ)
        (prior : Option (Tensor3 B ivd Lp)) (cf : Bool) (rand : Fin B → ℚ),
        m.forward x ts prior cf rand
          = (m.codeEmb L prior cf rand).map
              (fun ce => m.outHead (m.trunkOut ce x ts)))
    ∧ ∀ {B mc cd nl ic ivd oc melC Lm Lp : ℕ}
        (mm : TransformerDiffusionWithCheaterLatent B mc cd nl ic ivd oc melC
          Lm Lp) (mel : Tensor3 B melC Lm),
        mm.projWithDummies mel = mm.encoder mel := by
  constructor
  · intro B mc cd nl ic ivd oc L Lp m x ts prior cf rand
    unfold TransformerDiffusion.forward
    cases m.codeEmb L prior cf rand with
    | none => rfl
    | some ce =>
        simp only [Option.map_some']
        congr 1
        funext b c l
        ring
  · intro B mc cd nl ic ivd oc melC Lm Lp mm mel
    unfold TransformerDiffusionWithCheaterLatent.projWithDummies
    exact foldl_add_mul_zero _ (mm.encoder mel)

/-- C6: with `conditioning_free=False`, the denoiser is conditioned on the
latent code of the mel encoder: the `prior` handed to the inner
`TransformerDiffusion` is exactly the encoder's output on `truth_mel` (the
dummy additions contributing nothing over exact arithmetic). -/
theorem TransformerDiffusionWithCheaterLatent.prior_is_encoder_latent
    {B mc cd nl ic ivd oc melC Lm Lp L : ℕ}
    (m : TransformerDiffusionWithCheaterLatent B mc cd nl ic ivd oc melC Lm Lp)
    (x : Tensor3 B ic L) (ts : Fin B → ℕ) (mel : Tensor3 B melC Lm)
    (rand : Fin B → ℚ) :
    m.projWithDummies mel = m.encoder mel
    ∧ m.forward x ts mel false rand
        = m.diff.forward x ts (some (m.encoder mel)) false rand := by
  have h : m.projWithDummies mel = m.encoder mel := by
    unfold TransformerDiffusionWithCheaterLatent.projWithDummies
    exact foldl_add_mul_zero _ (m.encoder mel)
  refine ⟨h, ?_⟩
  unfold TransformerDiffusionWithCheaterLatent.forward
  rw [h]

/-- Indices (into the model's parameter vector) of the parameters of each
`ConcatAttentionBlock`'s `out` convolution and `prenorm` layer of
`self.diff.layers`, the two collections whose gradients
`TransformerDiffusionWithCheaterLatent.before_step` rescales. -/
structure CheaterParamLayout (N nl : ℕ) where
  outParams : Fin nl → List (Fin N)
  prenormParams : Fin nl → List (Fin N)

/-- Lines 218-219: `scaled_grad_parameters`, the chained `lyr.out.parameters()`
of every layer followed by the chained `lyr.prenorm.parameters()`. -/
def scaledGradParameters {N nl : ℕ} (lay : CheaterParamLayout N nl) :
    List (Fin N) :=
  (List.finRange nl).flatMap lay.outParams
    ++ (List.finRange nl).flatMap lay.prenormParams

/-- One step of the loop of lines 223-225: `p.grad *= .2` when the gradient is
present (`None` gradients are skipped and stay `None`). -/
def scaleGradAt {N : ℕ} (g : Fin N → Option ℚ) (i : Fin N) :
    Fin N → Option ℚ :=
  Function.update g i ((g i).map (fun v => v * 0.2))

/-- `TransformerDiffusionWithCheaterLatent.before_step` (lines 217-225) acting
on the gradient state `grads` of the model's `N` parameters. -/
def TransformerDiffusionWithCheaterLatent.before_step {N nl : ℕ}
    (lay : CheaterParamLayout N nl) (grads : Fin N → Option ℚ) :
    Fin N → Option ℚ :=
  (scaledGradParameters lay).foldl scaleGradAt grads

/-- Helper: folding `scaleGradAt` over a duplicate-free list scales exactly
the listed positions by `0.2` and leaves the rest untouched. -/
theorem foldl_scaleGradAt {N : ℕ} (l : List (Fin N)) (g : Fin N → Option ℚ)
    (hnd : l.Nodup) :
    (∀ i ∈ l, l.foldl scaleGradAt g i = (g i).map (fun v => v * 0.2))
    ∧ ∀ i ∉ l, l.foldl scaleGradAt g i = g i := by
  induction l generalizing g with
  | nil =>
      refine ⟨?_, ?_⟩
      · intro i h
        exact absurd h (List.not_mem_nil i)
      · intro i _
        rfl
  | cons a tl ih =>
      rw [List.nodup_cons] at hnd
      refine ⟨?_, ?_⟩
      · intro i hi
        rw [List.foldl_cons]
        rcases List.mem_cons.mp hi with hia | hitl
        · subst hia
          rw [(ih (scaleGradAt g i) hnd.2).2 i hnd.1]
          simp [scaleGradAt]
        · have hne : i ≠ a := fun he => hnd.1 (he ▸ hitl)
          rw [(ih (scaleGradAt g a) hnd.2).1 i hitl]
          simp [scaleGradAt, Function.update_noteq hne]
      · intro i hi
        rw [List.foldl_cons]
        have hne : i ≠ a := fun he => hi (he ▸ List.mem_cons_self a tl)
        have hitl : i ∉ tl := fun h => hi (List.mem_cons_of_mem a h)
        rw [(ih (scaleGradAt g a) hnd.2).2 i hitl]
        simp [scaleGradAt, Function.update_noteq hne]

/-- C4: `before_step` multiplies by `0.2` the gradient of every parameter of
each `ConcatAttentionBlock`'s `out` convolution and `prenorm` layer (when the
gradient exists — `None` gradients stay `None`), and leaves the gradient of
every other parameter of the model unchanged.  (The listed parameters are
pairwise distinct objects in the real module tree, whence the `Nodup`
hypothesis.) -/
theorem TransformerDiffusionWithCheaterLatent.before_step_scales_grads
    {N nl : ℕ} (lay : CheaterParamLayout N nl) (grads : Fin N → Option ℚ)
    (hnd : (scaledGradParameters lay).Nodup) :
    (∀ i ∈ scaledGradParameters lay,
        TransformerDiffusionWithCheaterLatent.before_step lay grads i
          = (grads i).map (fun v => v * 0.2))
    ∧ ∀ i ∉ scaledGradParameters lay,
        TransformerDiffusionWithCheaterLatent.before_step lay grads i
          = grads i :=
  foldl_scaleGradAt (scaledGradParameters lay) grads hnd

/-- A concrete parameter layout: one layer, parameter 0 in its `out`
convolution, parameter 1 in its `prenorm`, parameter 2 elsewhere. -/
def c4Layout : CheaterParamLayout 3 1 where
  outParams := fun _ => [0]
  prenormParams := fun _ => [1]

/-- Concrete gradient state for the C4 witness. -/
def c4Grads : Fin 3 → Option ℚ := ![some 10, none, some 30]

/-- Witness for C4 at a concrete layout: the `out` parameter's gradient is
scaled, the `prenorm` parameter's absent gradient stays absent, and the
remaining parameter's gradient is untouched. -/
theorem TransformerDiffusionWithCheaterLatent.before_step_scales_grads_witness :
    (scaledGradParameters c4Layout).Nodup
    ∧ TransformerDiffusionWithCheaterLatent.before_step c4Layout c4Grads 0
        = (c4Grads 0).map (fun v => v * 0.2)
    ∧ TransformerDiffusionWithCheaterLatent.before_step c4Layout c4Grads 1
        = (c4Grads 1).map (fun v => v * 0.2)
    ∧ TransformerDiffusionWithCheaterLatent.before_step c4Layout c4Grads 2
        = c4Grads 2 :=
  ⟨by decide,
   (TransformerDiffusionWithCheaterLatent.before_step_scales_grads c4Layout
      c4Grads (by decide)).1 0 (by decide),
   (TransformerDiffusionWithCheaterLatent.before_step_scales_grads c4Layout
      c4Grads (by decide)).1 1 (by decide),
   (TransformerDiffusionWithCheaterLatent.before_step_scales_grads c4Layout
      c4Grads (by decide)).2 2 (by decide)⟩

/-- The attribute names bound on `self` during `TransformerDiffusion.__init__`
before the `freeze_except_code_converters` branch: the unconditional
assignments of lines 91-117 plus the `training` flag set by
`nn.Module.__init__` (line 89).  `code_converter` is never assigned anywhere
in the class. -/
def TransformerDiffusion.initAssignedAttrs : List String :=
  ["training", "in_channels", "model_channels", "time_embed_dim",
   "out_channels", "dropout", "unconditioned_percentage", "enable_fp16",
   "new_code_expansion", "use_corner_alignment", "inp_block", "time_embed",
   "input_converter", "unconditioned_embedding", "intg", "layers", "out"]

/-- Python attribute lookup on the just-initialised module: reading a name
that was never bound makes `nn.Module.__getattr__` raise `AttributeError`
(modelled as `Except.error` carrying the attribute name). -/
def TransformerDiffusion.getattrInit (name : String) : Except String Unit :=
  if name ∈ TransformerDiffusion.initAssignedAttrs then Except.ok ()
  else Except.error name

/-- The constructor arguments of `TransformerDiffusion.__init__` other than
`self` (lines 70-88). -/
structure TransformerDiffusionInitArgs where
  time_embed_dim : ℕ
  model_channels : ℕ
  contraction_dim : ℕ
  num_layers : ℕ
  in_channels : ℕ
  input_vec_dim : ℕ
  out_channels : ℕ
  num_heads : ℕ
  dropout : ℚ
  use_corner_alignment : Bool
  use_fp16 : Bool
  new_code_expansion : Bool
  unconditioned_percentage : ℚ
  freeze_except_code_converters : Bool

/-- `TransformerDiffusion.__init__` at the level of attribute binding and
failure: the assignments of lines 91-117 are unconditional and independent of
the argument values (the framework layer constructors are taken to succeed),
after which the freeze branch (lines 119-126) evaluates
`self.code_converter and self.input_converter` (line 123) — python reads
`self.code_converter` first, before `and` can short-circuit. -/
def TransformerDiffusion.init (args : TransformerDiffusionInitArgs) :
    Except String Unit :=
  if args.freeze_except_code_converters then
    match TransformerDiffusion.getattrInit ("code_converter") with
    | Except.error e => Except.error e
    | Except.ok _ =>
        match TransformerDiffusion.getattrInit ("input_converter") with
        | Except.error e => Except.error e
        | Except.ok _ => Except.ok ()
  else Except.ok ()

/-- C9: constructing `TransformerDiffusion` with
`freeze_except_code_converters=True` raises `AttributeError` for every
combination of the other constructor arguments: line 123 reads the attribute
`code_converter`, which `__init__` never assigns. -/
theorem TransformerDiffusion.init_freeze_raises_attribute_error
    (args : TransformerDiffusionInitArgs) :
    TransformerDiffusion.init
        { args with freeze_except_code_converters := true }
      = Except.error ("code_converter") := by
  rfl

end TD14
